import Mathlib

/-!
Shallow embedding of the WebGIS service (`src/main.py`): the upload
(ingestion) pipeline, the attribute/GeoJSON read paths, the shapefile
export path and the buffer-analysis write path, together with theorems
settling the specification claims about them.

Modelling conventions:
* FastAPI `HTTPException` responses are values of `HResult`.
* Python exceptions raised inside a handler body are `Except PyExc`;
  a `try ... except Exception` wrapper is an explicit `match` that turns
  every exception — including an `HTTPException` raised inside the `try`
  block — into the 500-response built by the handler's `except` clause,
  exactly as CPython exception handling does.
* Python strings are Lean `String`s; the string primitives used by the
  code (`str.endswith`, `str.lower`, `str.replace` with one-character
  arguments, `os.path.splitext`) are re-implemented over `String.data`
  so that they evaluate by kernel reduction.  `lower` is modelled on the
  ASCII range, which is exhaustive for the extensions the code compares
  against.  Filenames are modelled without path separators, as uploaded
  file names are bare names.
* A Python `float` is modelled as `ℚ`; `int(x)` is truncation toward
  zero (`pyInt`).
* The database is modelled per endpoint with exactly the structure the
  endpoint touches: a list of named tables for the buffer path, row
  lists and column catalogs for the read paths.
-/

namespace WebGIS

/-- HTTP-level outcome of a request handler: either a successful payload
or an error response with an HTTP status code and a detail string
(FastAPI `HTTPException`). -/
inductive HResult (α : Type) where
  | ok : α → HResult α
  | err : (status : Nat) → (detail : String) → HResult α
deriving DecidableEq, Repr

/-- A Python exception value as observed by an `except Exception` clause:
either a `fastapi.HTTPException` (status plus detail) or any other
exception carrying a message. -/
inductive PyExc where
  | http : (status : Nat) → (detail : String) → PyExc
  | pyError : (msg : String) → PyExc
deriving DecidableEq, Repr

/-- Python `str(e)` for the two exception shapes: starlette renders an
`HTTPException` as `"{status_code}: {detail}"`. -/
def pyStr : PyExc → String
  | PyExc.http s d => toString s ++ ": " ++ d
  | PyExc.pyError m => m

/-- Python `s.endswith(suffix)`. -/
def pyEndsWith (s suffix : String) : Bool :=
  List.isSuffixOf suffix.data s.data

/-- ASCII case folding of one character (the fragment of `str.lower`
relevant to filename extensions). -/
def asciiLower (c : Char) : Char :=
  if 65 ≤ c.toNat ∧ c.toNat ≤ 90 then Char.ofNat (c.toNat + 32) else c

/-- Python `s.lower()` restricted to ASCII case folding. -/
def pyLower (s : String) : String := ⟨s.data.map asciiLower⟩

/-- Python `s.replace(old, new)` for one-character `old`/`new`, which is
a character-wise map. -/
def replaceChar (old new : Char) (s : String) : String :=
  ⟨s.data.map (fun c => if c = old then new else c)⟩

/-- Index of the last occurrence of `c`, if any. -/
def lastIdxOf (c : Char) : List Char → Option Nat
  | [] => none
  | x :: xs =>
    match lastIdxOf c xs with
    | some i => some (i + 1)
    | none => if x = c then some 0 else none

/-- The root part of Python `os.path.splitext(p)[0]` for a path with no
directory separator: cut at the last dot, unless every character before
that dot is itself a dot (CPython's leading-dot rule, so `.bashrc` keeps
its name). -/
def splitextRoot (s : String) : String :=
  match lastIdxOf '.' s.data with
  | none => s
  | some i =>
    if (s.data.take i).all (fun c => c = '.') then s
    else ⟨s.data.take i⟩

/-! ## Ingestion pipeline (`upload_shapefile`, src/main.py lines 102-135) -/

/-- An in-memory geospatial dataset as loaded by `gpd.read_file`: a
coordinate reference system tag (EPSG code, absent when the source file
declares none) and the geometry-plus-attributes payload, kept abstract
as a type parameter `G`. -/
structure Dataset (G : Type) where
  crs : Option Nat
  geom : G
deriving DecidableEq, Repr

/-- The delegated geospatial library operations the upload handler
calls: `parse path` is `gpd.read_file(path)` (`none` models a raised
parse error) and `reproject g src dst` is `to_crs` reprojection of the
payload from EPSG `src` to EPSG `dst`. -/
structure UploadEnv (G : Type) where
  parse : String → Option (Dataset G)
  reproject : G → Nat → Nat → G

/-- An upload request: the client-supplied file name, and the names the
scratch directory listing would show after `zip_ref.extractall` (the
archive's extracted top-level entries).  For a non-zip upload
`extracted` is irrelevant; the uploaded file itself also appears in the
listing and is prepended by the handler model. -/
structure UploadReq where
  filename : String
  extracted : List String
deriving DecidableEq, Repr

/-- CRS normalization, src/main.py lines 125-128: a dataset with no CRS
is tagged EPSG:4326 in place (`set_crs`, no coordinate change); a
dataset with CRS `c` is reprojected from `c` to EPSG:4326 (`to_crs`). -/
def normalizeCrs {G : Type} (reproject : G → Nat → Nat → G) (ds : Dataset G) :
    Dataset G :=
  match ds.crs with
  | none => ⟨some 4326, ds.geom⟩
  | some c => ⟨some 4326, reproject ds.geom c 4326⟩

/-- Destination table name, src/main.py line 130:
`os.path.splitext(file.filename)[0].lower().replace(" ", "_").replace("-", "_")`. -/
def pyTableName (filename : String) : String :=
  replaceChar '-' '_' (replaceChar ' ' '_' (pyLower (splitextRoot filename)))

/-- Selection of the file handed to `gpd.read_file`, src/main.py lines
113-122: a `.zip` upload (case-sensitive check) is extracted and the
first `.shp` member of the scratch listing is used, failing when there
is none; otherwise the name must end (case-insensitively) in `.shp`,
`.geojson` or `.json`, else the unsupported-type error is raised. -/
def selectTarget (req : UploadReq) : Except PyExc String :=
  if pyEndsWith req.filename ".zip" then
    match (req.filename :: req.extracted).filter (fun f => pyEndsWith f ".shp") with
    | [] => Except.error (PyExc.http 400 "Zip file must contain a .shp file")
    | f :: _ => Except.ok f
  else if pyEndsWith (pyLower req.filename) ".shp"
      || pyEndsWith (pyLower req.filename) ".geojson"
      || pyEndsWith (pyLower req.filename) ".json" then
    Except.ok req.filename
  else
    Except.error (PyExc.http 400
      "Unsupported file type. Please upload .zip (Shapefile) or .geojson/.json")

/-- What a successful upload materializes: the destination table name,
the dataset as written by `to_postgis` (with `if_exists = replace`), and
the success message (modelled without the quote characters around the
table name). -/
structure UploadOk (G : Type) where
  tableName : String
  dataset : Dataset G
  message : String
deriving DecidableEq, Repr

/-- Body of the `try` block of `upload_shapefile`, src/main.py lines
112-132: pick the target file, parse it, normalize the CRS, derive the
table name and materialize.  Any `Except.error` models a raised Python
exception, including the two `HTTPException(400)`s raised inside the
`try`. -/
def uploadInner {G : Type} (env : UploadEnv G) (req : UploadReq) :
    Except PyExc (UploadOk G) :=
  match selectTarget req with
  | Except.error e => Except.error e
  | Except.ok target =>
    match env.parse target with
    | none => Except.error (PyExc.pyError "read_file failed")
    | some gdf =>
      let gdf2 := normalizeCrs env.reproject gdf
      let tn := pyTableName req.filename
      Except.ok ⟨tn, gdf2, "Layer " ++ tn ++ " uploaded successfully."⟩

/-- The `upload_shapefile` handler, src/main.py lines 102-135: the
empty-filename 400 is raised outside the `try`; everything raised
inside the `try` — the two deliberate `HTTPException(400)`s included,
since `HTTPException` subclasses `Exception` — is caught by
`except Exception as e` and re-raised as
`HTTPException(500, "File processing failed: " + str(e))`. -/
def upload_shapefile {G : Type} (env : UploadEnv G) (req : UploadReq) :
    HResult (UploadOk G) :=
  if req.filename = "" then HResult.err 400 "No file provided"
  else
    match uploadInner env req with
    | Except.ok r => HResult.ok r
    | Except.error e => HResult.err 500 ("File processing failed: " ++ pyStr e)

/-! ## Attribute read path (`get_layer_attributes`, src/main.py lines 77-99) -/

/-- One database row, as the association of column names to (rendered)
values that `dict(r)` produces. -/
abbrev Row := List (String × String)

/-- The SQL statements the attributes handler can issue, recorded so
that theorems can speak about which queries run. -/
inductive Query where
  | geomCatalogLookup : (table : String) → Query
  | columnsLookup : (table : String) → Query
  | selectAllRows : (table : String) → Query
  | selectColsRows : (table : String) → (cols : List String) → Query
deriving DecidableEq, Repr

/-- Whether a query reads the layer table itself (as opposed to the
`geometry_columns` catalog or `information_schema`). -/
def queriesTable : Query → String → Bool
  | Query.selectAllRows t, u => t == u
  | Query.selectColsRows t _, u => t == u
  | _, _ => false

/-- The database as seen by the read paths: the `geometry_columns`
catalog entry for a table (geometry column name, `none` when the table
is not catalogued), the `information_schema` column list, and the
table's rows. -/
structure AttrDb where
  geomCatalog : String → Option String
  columnsOf : String → List String
  rowsOf : String → List Row

/-- Response shape of the attributes endpoint:
`{"headers": column_names, "data": [dict(r), ...]}`. -/
structure AttrResult where
  headers : List String
  data : List Row
deriving DecidableEq, Repr

/-- Projection of a row to the selected columns, as
`SELECT "c1", "c2", ... ` returns it. -/
def selectRow (cols : List String) (r : Row) : Row :=
  cols.map (fun c => (c, (List.lookup c r).getD ""))

/-- The `get_layer_attributes` handler, src/main.py lines 77-99: look
up the geometry column in `geometry_columns` (a falsy result — `None`
or the empty string — yields the 404, which is raised outside any
`try`); enumerate the other columns from `information_schema`; when
there are none, `SELECT * ... LIMIT 100`, otherwise select exactly the
enumerated columns with the same cap.  The second component is the list
of SQL statements issued. -/
def get_layer_attributes (db : AttrDb) (t : String) :
    HResult AttrResult × List Query :=
  match db.geomCatalog t with
  | none =>
    (HResult.err 404 "Table or geometry column not found.", [Query.geomCatalogLookup t])
  | some g =>
    if g = "" then
      (HResult.err 404 "Table or geometry column not found.", [Query.geomCatalogLookup t])
    else
      let columnNames := (db.columnsOf t).filter (fun c => c != g)
      if columnNames.isEmpty then
        (HResult.ok ⟨columnNames, (db.rowsOf t).take 100⟩,
         [Query.geomCatalogLookup t, Query.columnsLookup t, Query.selectAllRows t])
      else
        (HResult.ok ⟨columnNames, ((db.rowsOf t).take 100).map (selectRow columnNames)⟩,
         [Query.geomCatalogLookup t, Query.columnsLookup t,
          Query.selectColsRows t columnNames])

/-! ## GeoJSON read path (`get_layer_geojson`, src/main.py lines 63-75) -/

/-- SQL `json_agg` over a result set: `NULL` (here `none`) on an empty
set, the aggregated list otherwise. -/
def jsonAgg {α : Type} (xs : List α) : Option (List α) :=
  if xs.isEmpty then none else some xs

/-- SQL `COALESCE`. -/
def coalesce {α : Type} (x : Option α) (d : α) : α := x.getD d

/-- The handler's response value: the `json_build_object` envelope with
type tag and feature list (each feature kept abstract as the
`ST_AsGeoJSON(t.*)` rendering of its row). -/
structure FeatureCollection where
  typ : String
  features : List String
deriving DecidableEq, Repr

/-- The single aggregate query of src/main.py lines 67-72:
`json_build_object('type', 'FeatureCollection', 'features',
COALESCE(json_agg(ST_AsGeoJSON(t.*)::json), '[]'))`. -/
def featureCollectionQuery (feats : List String) : FeatureCollection :=
  ⟨"FeatureCollection", coalesce (jsonAgg feats) []⟩

/-- The `get_layer_geojson` handler, src/main.py lines 63-75: run the
aggregate query (an aggregate over a table always yields exactly one
row, so `fetchval` is `some`), then
`json.loads(result) if result else {"type": "FeatureCollection", "features": []}`. -/
def get_layer_geojson (stAsGeoJSON : Row → String) (rows : List Row) :
    FeatureCollection :=
  let result : Option FeatureCollection :=
    some (featureCollectionQuery (rows.map stAsGeoJSON))
  match result with
  | some fc => fc
  | none => ⟨"FeatureCollection", []⟩

/-! ## Export path (`export_shapefile`, src/main.py lines 137-162) -/

/-- Body of the `try` block of `export_shapefile`: read the table back
(`rowCount = none` models `read_postgis` raising because the relation
does not exist), raise `HTTPException(404)` when the frame is empty,
otherwise produce the zip archive name returned to the client. -/
def exportInner (rowCount : Option Nat) (t : String) : Except PyExc String :=
  match rowCount with
  | none => Except.error (PyExc.pyError "relation does not exist")
  | some n =>
    if n = 0 then Except.error (PyExc.http 404 "Layer not found or empty.")
    else Except.ok (t ++ "_export.zip")

/-- The `export_shapefile` handler, src/main.py lines 137-162: every
exception raised inside the `try` — the deliberate `HTTPException(404)`
included — is caught by `except Exception as e` and re-raised as
`HTTPException(500, "Failed to export shapefile: " + str(e))`. -/
def export_shapefile (rowCount : Option Nat) (t : String) : HResult String :=
  match exportInner rowCount t with
  | Except.ok z => HResult.ok z
  | Except.error e => HResult.err 500 ("Failed to export shapefile: " ++ pyStr e)

/-- Events of a successful export request, in order of occurrence:
the scratch directory is created (`tempfile.TemporaryDirectory`), the
shapefile components and the zip are written, the handler returns a
`FileResponse` naming the zip path, the `with` block deletes the
scratch directory as the handler returns, and only then does the
framework stream the lazily-constructed `FileResponse` from that path
(starlette reads the file after the handler has returned). -/
inductive ExportEvent where
  | acquireScratch : ExportEvent
  | writeShapefileParts : ExportEvent
  | writeZipArchive : ExportEvent
  | handlerReturn : (zipPath : String) → ExportEvent
  | releaseScratch : ExportEvent
  | streamResponse : (zipPath : String) → ExportEvent
deriving DecidableEq, Repr

/-- Event trace of a successful (non-empty, existing table) export of
table `t`, src/main.py lines 146-159: the `return FileResponse(...)`
statement exits the `with tempfile.TemporaryDirectory()` block, so the
directory is removed before the response body is streamed. -/
def exportSuccessTrace (t : String) : List ExportEvent :=
  [ExportEvent.acquireScratch,
   ExportEvent.writeShapefileParts,
   ExportEvent.writeZipArchive,
   ExportEvent.handlerReturn (t ++ "_export.zip"),
   ExportEvent.releaseScratch,
   ExportEvent.streamResponse (t ++ "_export.zip")]

/-- Position of the scratch-reclamation event in a trace. -/
def releaseIdx (tr : List ExportEvent) : Option Nat :=
  tr.findIdx? (fun e =>
    match e with
    | ExportEvent.releaseScratch => true
    | _ => false)

/-- Position of the response-streaming event in a trace. -/
def streamIdx (tr : List ExportEvent) : Option Nat :=
  tr.findIdx? (fun e =>
    match e with
    | ExportEvent.streamResponse _ => true
    | _ => false)

/-- Whether scratch storage is reclaimed only after the response has
been streamed: if both events occur, streaming must come first. -/
def scratchReclaimedOnlyAfterSend (tr : List ExportEvent) : Bool :=
  match releaseIdx tr, streamIdx tr with
  | some r, some s => decide (s < r)
  | _, _ => true

/-! ## Buffer analysis (`run_buffer_analysis`, src/main.py lines 164-184) -/

/-- Python `int(x)` on a real number: truncation toward zero. -/
def pyInt (q : ℚ) : ℤ := if q < 0 then ⌈q⌉ else ⌊q⌋

/-- Derived table name, src/main.py line 166:
`f"{params.table_name}_buffer_{int(params.distance)}m"`. -/
def bufferTableName (t : String) (d : ℚ) : String :=
  t ++ "_buffer_" ++ toString (pyInt d) ++ "m"

/-- Contents of a stored table, as far as the buffer path distinguishes
them: a base layer, or a derived layer recording which source table it
buffers and by which distance. -/
inductive TableData where
  | base : TableData
  | buffered : (src : String) → (dist : ℚ) → TableData
deriving DecidableEq, Repr

/-- The store's default schema: named tables in creation order. -/
abbrev Db := List (String × TableData)

/-- SQL `DROP TABLE IF EXISTS`. -/
def dropTable (n : String) (db : Db) : Db :=
  db.filter (fun p => p.1 != n)

/-- Whether a table of the given name exists. -/
def tableExists (db : Db) (t : String) : Bool :=
  db.any (fun p => p.1 == t)

/-- The `run_buffer_analysis` handler, src/main.py lines 164-184: drop
any table with the derived name, then `CREATE TABLE ... AS SELECT`
buffering the source table, and commit.  When the source table does not
exist the `CREATE` raises, the connection context rolls back the
uncommitted drop, and the handler's `except` clause answers 500 with
the store state unchanged. -/
def run_buffer_analysis (db : Db) (t : String) (d : ℚ) : HResult String × Db :=
  let n := bufferTableName t d
  if tableExists db t then
    (HResult.ok n, dropTable n db ++ [(n, TableData.buffered t d)])
  else
    (HResult.err 500 "Buffer analysis failed: source table does not exist", db)

/-- Number of tables of a given name. -/
def countTables (n : String) (db : Db) : Nat :=
  (db.filter (fun p => p.1 == n)).length

/-! ## Helper lemmas -/

theorem pyInt_intCast (k : ℤ) : pyInt (k : ℚ) = k := by
  unfold pyInt
  split <;> simp

theorem bufferTableName_ne_source (t : String) (d : ℚ) :
    bufferTableName t d ≠ t := by
  intro h
  have hl := congrArg String.length h
  rw [bufferTableName, String.length_append, String.length_append,
    String.length_append] at hl
  have h8 : ("_buffer_" : String).length = 8 := rfl
  have h1 : ("m" : String).length = 1 := rfl
  omega

theorem filter_key_dropTable (n : String) (db : Db) :
    (dropTable n db).filter (fun p => p.1 == n) = [] := by
  unfold dropTable
  induction db with
  | nil => rfl
  | cons p l ih =>
    by_cases hp : p.1 = n
    · simp [List.filter_cons, hp, ih]
    · simp [List.filter_cons, hp, ih]

theorem dropTable_idem (n : String) (db : Db) :
    dropTable n (dropTable n db) = dropTable n db := by
  unfold dropTable
  induction db with
  | nil => rfl
  | cons p l ih =>
    by_cases hp : p.1 = n
    · simp [List.filter_cons, hp, ih]
    · simp [List.filter_cons, hp, ih]

theorem dropTable_append (n : String) (a b : Db) :
    dropTable n (a ++ b) = dropTable n a ++ dropTable n b := by
  unfold dropTable
  exact List.filter_append a b

theorem dropTable_single_self (n : String) (c : TableData) :
    dropTable n [(n, c)] = [] := by
  simp [dropTable, List.filter_cons]

theorem tableExists_dropTable (db : Db) (s n : String) (hne : s ≠ n)
    (h : tableExists db s = true) : tableExists (dropTable n db) s = true := by
  unfold tableExists dropTable at *
  rw [List.any_eq_true] at h ⊢
  obtain ⟨p, hp, hps⟩ := h
  have hps1 : p.1 = s := by simpa using hps
  refine ⟨p, List.mem_filter.mpr ⟨hp, ?_⟩, hps⟩
  simp [hps1, hne]

/-! ## Claim theorems -/

/-- Claim C1 (status: code bug in the implementation).  The claim and
the spec say both pre-parse upload rejections — a `.zip` archive with
no `.shp` member, and an extension other than `.zip`/`.shp`/
`.geojson`/`.json` — answer with a 400.  The code does raise
`HTTPException(400, ...)` in both places, but inside the handler's
`try` block, whose `except Exception` clause catches its own
`HTTPException` (a subclass of `Exception`) and re-raises it as a 500.
Evaluating the handler on both failing inputs — for every parsing
environment, showing the failure is decided before parsing — yields
500 responses, not 400s. -/
theorem upload_precheck_failures_surface_as_500 (env : UploadEnv Unit) :
    upload_shapefile env ⟨"data.txt", []⟩
      = HResult.err 500
        "File processing failed: 400: Unsupported file type. Please upload .zip (Shapefile) or .geojson/.json" ∧
    upload_shapefile env ⟨"data.zip", ["readme.txt"]⟩
      = HResult.err 500 "File processing failed: 400: Zip file must contain a .shp file" :=
  ⟨rfl, rfl⟩

/-- Claim C2 (status: code bug in the implementation).  The claim and
the spec say exporting a table whose result set is empty fails with a
404-equivalent.  The code raises `HTTPException(404, ...)` inside the
`try` block of `export_shapefile`, whose `except Exception` clause
catches it and re-raises it as a 500.  Evaluating the handler on an
existing table with zero rows yields a 500 response, not a 404. -/
theorem export_empty_result_surfaces_as_500 (t : String) :
    export_shapefile (some 0) t
      = HResult.err 500 "Failed to export shapefile: 404: Layer not found or empty." :=
  rfl

/-- Claim C3 (status: code bug in the implementation).  The claim says
the scratch storage is reclaimed only after the binary response is
fully sent.  In the code, `return FileResponse(...)` exits the
`with tempfile.TemporaryDirectory()` block, which deletes the scratch
directory as the handler returns — before the framework streams the
lazily-read `FileResponse` from the now-deleted path.  In the event
trace of a successful export the reclamation (index 4) strictly
precedes the streaming of the response (index 5). -/
theorem export_scratch_reclaimed_before_response_sent (t : String) :
    scratchReclaimedOnlyAfterSend (exportSuccessTrace t) = false ∧
    releaseIdx (exportSuccessTrace t) = some 4 ∧
    streamIdx (exportSuccessTrace t) = some 5 :=
  ⟨rfl, rfl, rfl⟩

/-- Claim C8 (status: confirmed).  For a GeoJSON request on an existing
table with zero rows, `json_agg` over the empty set is `NULL`,
`COALESCE` turns it into the empty list, and the handler returns a
FeatureCollection whose features list is empty — for every rendering
function `ST_AsGeoJSON`, and without failing. -/
theorem geojson_empty_table_is_empty_feature_collection (f : Row → String) :
    get_layer_geojson f [] = ⟨"FeatureCollection", []⟩ :=
  rfl

theorem upload_ok_inversion {G : Type} (env : UploadEnv G) (req : UploadReq)
    (r : UploadOk G) (h : upload_shapefile env req = HResult.ok r) :
    ∃ target ds, selectTarget req = Except.ok target ∧
      env.parse target = some ds ∧
      r = ⟨pyTableName req.filename, normalizeCrs env.reproject ds,
           "Layer " ++ pyTableName req.filename ++ " uploaded successfully."⟩ := by
  unfold upload_shapefile at h
  by_cases hf : req.filename = ""
  · rw [if_pos hf] at h
    exact absurd h (by simp)
  · rw [if_neg hf] at h
    unfold uploadInner at h
    cases hsel : selectTarget req with
    | error e =>
      rw [hsel] at h
      exact absurd h (by simp)
    | ok target =>
      rw [hsel] at h
      dsimp only at h
      cases hp : env.parse target with
      | none =>
        rw [hp] at h
        exact absurd h (by simp)
      | some ds =>
        rw [hp] at h
        simp only [HResult.ok.injEq] at h
        exact ⟨target, ds, rfl, hp, h.symm⟩

/-- Claim C5 (status: confirmed).  Whenever the upload handler reaches
materialization, the dataset written to the store is the CRS-normalized
parse result: it is always tagged EPSG:4326; when the parsed dataset
carried no CRS its coordinates are untouched (`set_crs` only); when it
carried CRS `c` its coordinates are the reprojection from `c` to
EPSG:4326 (`to_crs`). -/
theorem upload_crs_normalization {G : Type} (env : UploadEnv G) (req : UploadReq)
    (r : UploadOk G) (h : upload_shapefile env req = HResult.ok r) :
    ∃ target ds, selectTarget req = Except.ok target ∧ env.parse target = some ds ∧
      r.dataset = normalizeCrs env.reproject ds ∧
      r.dataset.crs = some 4326 ∧
      (ds.crs = none → r.dataset.geom = ds.geom) ∧
      (∀ c, ds.crs = some c → r.dataset.geom = env.reproject ds.geom c 4326) := by
  obtain ⟨target, ds, h1, h2, h3⟩ := upload_ok_inversion env req r h
  subst h3
  refine ⟨target, ds, h1, h2, rfl, ?_, ?_, ?_⟩
  · cases hc : ds.crs <;> simp [normalizeCrs, hc]
  · intro hnone
    simp [normalizeCrs, hnone]
  · intro c hc
    simp [normalizeCrs, hc]

/-- Parsing environment used as witness input: every parse yields a
dataset tagged EPSG:3857, and reprojection is an injective arithmetic
shuffle so transformations are visible in the result. -/
def envGeo : UploadEnv Nat :=
  ⟨fun _ => some ⟨some 3857, 7⟩, fun g a b => g * 10000 + a + b⟩

/-- Second parsing environment used as witness input: parses to a
dataset with no CRS. -/
def envGeoNoCrs : UploadEnv Nat :=
  ⟨fun _ => some ⟨none, 9⟩, fun g a b => g * 20000 + a + b⟩

/-- Upload request used as witness input. -/
def reqGeo : UploadReq := ⟨"My Roads-1.geojson", []⟩

/-- Second upload request used as witness input: same filename, with a
(meaningless for a GeoJSON upload) extraction listing. -/
def reqGeoB : UploadReq := ⟨"My Roads-1.geojson", ["stray.txt"]⟩

/-- Result of uploading `reqGeo` under `envGeo`. -/
def upOkGeo : UploadOk Nat :=
  ⟨"my_roads_1", ⟨some 4326, 7 * 10000 + 3857 + 4326⟩,
   "Layer my_roads_1 uploaded successfully."⟩

/-- Result of uploading `reqGeoB` under `envGeoNoCrs`. -/
def upOkGeoNoCrs : UploadOk Nat :=
  ⟨"my_roads_1", ⟨some 4326, 9⟩, "Layer my_roads_1 uploaded successfully."⟩

/-- Witness for `upload_crs_normalization` at a concrete upload. -/
theorem upload_crs_normalization_witness :
    upload_shapefile envGeo reqGeo = HResult.ok upOkGeo ∧
    (∃ target ds, selectTarget reqGeo = Except.ok target ∧
      envGeo.parse target = some ds ∧
      upOkGeo.dataset = normalizeCrs envGeo.reproject ds ∧
      upOkGeo.dataset.crs = some 4326 ∧
      (ds.crs = none → upOkGeo.dataset.geom = ds.geom) ∧
      (∀ c, ds.crs = some c → upOkGeo.dataset.geom = envGeo.reproject ds.geom c 4326)) :=
  ⟨rfl, upload_crs_normalization envGeo reqGeo upOkGeo rfl⟩

/-- Claim C9 (status: confirmed).  The destination table name of every
successful upload is a deterministic function of the uploaded filename
alone — two uploads of equal filename under arbitrary different
environments yield the same table — namely the base name with the
(last) extension removed, lowercased, with every space and hyphen
replaced by an underscore. -/
theorem upload_table_name_deterministic {G G2 : Type}
    (env : UploadEnv G) (env2 : UploadEnv G2) (req req2 : UploadReq)
    (r : UploadOk G) (r2 : UploadOk G2)
    (h : upload_shapefile env req = HResult.ok r)
    (h2 : upload_shapefile env2 req2 = HResult.ok r2)
    (hf : req.filename = req2.filename) :
    r.tableName = r2.tableName ∧
    r.tableName
      = replaceChar '-' '_' (replaceChar ' ' '_' (pyLower (splitextRoot req.filename))) := by
  obtain ⟨t1, d1, _, _, h3⟩ := upload_ok_inversion env req r h
  obtain ⟨t2, d2, _, _, h3x⟩ := upload_ok_inversion env2 req2 r2 h2
  subst h3 h3x
  constructor
  · show pyTableName req.filename = pyTableName req2.filename
    rw [hf]
  · rfl

/-- Witness for `upload_table_name_deterministic` at two concrete
uploads of the same file name under different environments. -/
theorem upload_table_name_deterministic_witness :
    upload_shapefile envGeo reqGeo = HResult.ok upOkGeo ∧
    upload_shapefile envGeoNoCrs reqGeoB = HResult.ok upOkGeoNoCrs ∧
    reqGeo.filename = reqGeoB.filename ∧
    (upOkGeo.tableName = upOkGeoNoCrs.tableName ∧
     upOkGeo.tableName
       = replaceChar '-' '_' (replaceChar ' ' '_' (pyLower (splitextRoot reqGeo.filename)))) :=
  ⟨rfl, rfl, rfl,
   upload_table_name_deterministic envGeo envGeoNoCrs reqGeo reqGeoB upOkGeo upOkGeoNoCrs
     rfl rfl rfl⟩

/-- Claim C7 (status: confirmed).  When the spatial-metadata catalog
reports no geometry column for the requested table, the attributes
handler answers 404 "not found" — this `HTTPException` is raised
outside any `try`, so it reaches the framework as a genuine 404 — and
the only statement issued is the catalog lookup itself: in particular
no query runs against the table. -/
theorem attributes_missing_geometry_column_404 (db : AttrDb) (t : String)
    (h : db.geomCatalog t = none) :
    (get_layer_attributes db t).1
      = HResult.err 404 "Table or geometry column not found." ∧
    (get_layer_attributes db t).2 = [Query.geomCatalogLookup t] ∧
    (get_layer_attributes db t).2.filter (fun q => queriesTable q t) = [] := by
  unfold get_layer_attributes
  rw [h]
  exact ⟨rfl, rfl, rfl⟩

/-- Catalog-less database used as witness input. -/
def attrDbEmpty : AttrDb := ⟨fun _ => none, fun _ => [], fun _ => []⟩

/-- Witness for `attributes_missing_geometry_column_404` at a concrete
table. -/
theorem attributes_missing_geometry_column_404_witness :
    attrDbEmpty.geomCatalog "roads" = none ∧
    ((get_layer_attributes attrDbEmpty "roads").1
        = HResult.err 404 "Table or geometry column not found." ∧
     (get_layer_attributes attrDbEmpty "roads").2
        = [Query.geomCatalogLookup "roads"] ∧
     (get_layer_attributes attrDbEmpty "roads").2.filter
        (fun q => queriesTable q "roads") = []) :=
  ⟨rfl, attributes_missing_geometry_column_404 attrDbEmpty "roads" rfl⟩

/-- Claim C6 (status: confirmed).  On a table with a known geometry
column: with zero non-geometry columns the handler selects all columns
of the first 100 rows (and the header list degenerates to empty); with
some non-geometry columns it selects exactly those columns, same row
cap; in both cases the response carries the non-geometry column-name
list as headers and one mapping per row, at most 100 of them. -/
theorem attributes_known_geometry_column (db : AttrDb) (t g : String)
    (hg : db.geomCatalog t = some g) (hne : g ≠ "") :
    ((db.columnsOf t).filter (fun c => c != g) = [] →
      (get_layer_attributes db t)
        = (HResult.ok ⟨[], (db.rowsOf t).take 100⟩,
           [Query.geomCatalogLookup t, Query.columnsLookup t,
            Query.selectAllRows t])) ∧
    ((db.columnsOf t).filter (fun c => c != g) ≠ [] →
      (get_layer_attributes db t)
        = (HResult.ok ⟨(db.columnsOf t).filter (fun c => c != g),
             ((db.rowsOf t).take 100).map
               (selectRow ((db.columnsOf t).filter (fun c => c != g)))⟩,
           [Query.geomCatalogLookup t, Query.columnsLookup t,
            Query.selectColsRows t ((db.columnsOf t).filter (fun c => c != g))])) ∧
    (∀ res, (get_layer_attributes db t).1 = HResult.ok res →
      res.headers = (db.columnsOf t).filter (fun c => c != g) ∧
      res.data.length ≤ 100) := by
  simp only [get_layer_attributes, hg]
  rw [if_neg hne]
  by_cases hc : (db.columnsOf t).filter (fun c => c != g) = []
  · rw [hc]
    refine ⟨fun _ => rfl, fun hx => absurd rfl hx, ?_⟩
    intro res hres
    simp only [List.isEmpty_nil, if_true] at hres
    simp only [HResult.ok.injEq] at hres
    subst hres
    exact ⟨rfl, List.length_take_le 100 _⟩
  · have hc2 : ((db.columnsOf t).filter (fun c => c != g)).isEmpty = false := by
      rw [List.isEmpty_eq_false_iff_exists_mem]
      rcases List.exists_mem_of_ne_nil _ hc with ⟨x, hx⟩
      exact ⟨x, hx⟩
    rw [hc2]
    simp only [Bool.false_eq_true, if_false]
    refine ⟨fun hx => absurd hx hc, fun _ => by trivial, ?_⟩
    intro res hres
    simp only [HResult.ok.injEq] at hres
    subst hres
    refine ⟨rfl, ?_⟩
    rw [List.length_map]
    exact List.length_take_le 100 _

/-- Database with a geometry-only table `pts` and a two-column table
`parcels`, used as witness input. -/
def attrDbTwo : AttrDb :=
  ⟨fun t => if t = "pts" ∨ t = "parcels" then some "geometry" else none,
   fun t => if t = "parcels" then ["geometry", "owner"] else
     if t = "pts" then ["geometry"] else [],
   fun t => if t = "parcels" then [[("geometry", "POINT(0 0)"), ("owner", "ada")]] else
     if t = "pts" then [[("geometry", "POINT(1 1)")]] else []⟩

/-- Witness for `attributes_known_geometry_column` at a concrete
table. -/
theorem attributes_known_geometry_column_witness :
    attrDbTwo.geomCatalog "parcels" = some "geometry" ∧
    ("geometry" : String) ≠ "" ∧
    ((attrDbTwo.columnsOf "parcels").filter (fun c => c != "geometry") = [] →
      (get_layer_attributes attrDbTwo "parcels")
        = (HResult.ok ⟨[], (attrDbTwo.rowsOf "parcels").take 100⟩,
           [Query.geomCatalogLookup "parcels", Query.columnsLookup "parcels",
            Query.selectAllRows "parcels"])) ∧
    ((attrDbTwo.columnsOf "parcels").filter (fun c => c != "geometry") ≠ [] →
      (get_layer_attributes attrDbTwo "parcels")
        = (HResult.ok ⟨(attrDbTwo.columnsOf "parcels").filter (fun c => c != "geometry"),
             ((attrDbTwo.rowsOf "parcels").take 100).map
               (selectRow ((attrDbTwo.columnsOf "parcels").filter (fun c => c != "geometry")))⟩,
           [Query.geomCatalogLookup "parcels", Query.columnsLookup "parcels",
            Query.selectColsRows "parcels"
              ((attrDbTwo.columnsOf "parcels").filter (fun c => c != "geometry"))])) ∧
    (∀ res, (get_layer_attributes attrDbTwo "parcels").1 = HResult.ok res →
      res.headers = (attrDbTwo.columnsOf "parcels").filter (fun c => c != "geometry") ∧
      res.data.length ≤ 100) := by
  refine ⟨rfl, by decide, ?_⟩
  exact attributes_known_geometry_column attrDbTwo "parcels" "geometry" rfl (by decide)

theorem run_buffer_state (db : Db) (t : String) (d : ℚ)
    (h : tableExists db t = true) :
    (run_buffer_analysis db t d).2
      = dropTable (bufferTableName t d) db
        ++ [(bufferTableName t d, TableData.buffered t d)] := by
  simp [run_buffer_analysis, h]

theorem tableExists_run_buffer (db : Db) (t : String) (d : ℚ) (s : String)
    (hsn : s ≠ bufferTableName t d)
    (hs : tableExists db s = true) (ht : tableExists db t = true) :
    tableExists ((run_buffer_analysis db t d).2) s = true := by
  rw [run_buffer_state db t d ht]
  have hd1 := tableExists_dropTable db s (bufferTableName t d) hsn hs
  unfold tableExists at hd1 ⊢
  rw [List.any_append, hd1]
  simp

/-- Claim C4 (status: confirmed).  For a buffer-analysis request on
source table `s` with (integer-valued) distance `d = k` meters, the
derived layer's name is deterministically `s ++ "_buffer_" ++ k ++ "m"`,
and running the same request twice leaves the store exactly as one run
left it — in particular with exactly one table of the derived name: the
pre-existing derived layer is dropped and replaced, not accumulated
alongside. -/
theorem run_buffer_naming_and_idempotent
    (db : Db) (s : String) (d : ℚ) (k : ℤ)
    (hs : tableExists db s = true) (hd : d = (k : ℚ)) :
    bufferTableName s d = s ++ "_buffer_" ++ toString k ++ "m" ∧
    (run_buffer_analysis (run_buffer_analysis db s d).2 s d).2
      = (run_buffer_analysis db s d).2 ∧
    countTables (bufferTableName s d)
      (run_buffer_analysis (run_buffer_analysis db s d).2 s d).2 = 1 := by
  have hname : bufferTableName s d = s ++ "_buffer_" ++ toString k ++ "m" := by
    rw [bufferTableName, hd, pyInt_intCast]
  have hsn : s ≠ bufferTableName s d := Ne.symm (bufferTableName_ne_source s d)
  have h1 := run_buffer_state db s d hs
  have hex2 : tableExists ((run_buffer_analysis db s d).2) s = true :=
    tableExists_run_buffer db s d s hsn hs hs
  have h2 := run_buffer_state ((run_buffer_analysis db s d).2) s d hex2
  have hdrop : dropTable (bufferTableName s d) ((run_buffer_analysis db s d).2)
      = dropTable (bufferTableName s d) db := by
    rw [h1, dropTable_append, dropTable_idem, dropTable_single_self, List.append_nil]
  refine ⟨hname, ?_, ?_⟩
  · rw [h2, hdrop, h1]
  · rw [h2, hdrop]
    unfold countTables
    rw [List.filter_append, filter_key_dropTable]
    simp [List.filter_cons]

/-- One-layer store used as witness input to the buffer theorems. -/
def dbParcels : Db := [("parcels", TableData.base)]

/-- Witness for `run_buffer_naming_and_idempotent` at a concrete store,
source table and distance. -/
theorem run_buffer_naming_and_idempotent_witness :
    tableExists dbParcels "parcels" = true ∧
    (50 : ℚ) = ((50 : ℤ) : ℚ) ∧
    (bufferTableName "parcels" 50
        = "parcels" ++ "_buffer_" ++ toString (50 : ℤ) ++ "m" ∧
     (run_buffer_analysis (run_buffer_analysis dbParcels "parcels" 50).2 "parcels" 50).2
        = (run_buffer_analysis dbParcels "parcels" 50).2 ∧
     countTables (bufferTableName "parcels" 50)
        (run_buffer_analysis (run_buffer_analysis dbParcels "parcels" 50).2 "parcels" 50).2
        = 1) :=
  ⟨rfl, by norm_num,
   run_buffer_naming_and_idempotent dbParcels "parcels" 50 50 rfl (by norm_num)⟩

/-- Claim C10 (status: confirmed).  The requested distance is truncated
to an integer when the derived table name is formed, so two requests on
the same source whose distances share a truncation (such as 50.2 and
50.9) target the same derived table name while buffering by different
distances; after running both, exactly one derived table of that name
exists and it holds the later request's buffer — the earlier derived
layer is silently replaced. -/
theorem buffer_truncation_collides_and_replaces
    (db : Db) (s : String) (d₁ d₂ : ℚ)
    (hs : tableExists db s = true)
    (ht : pyInt d₁ = pyInt d₂) (hdist : d₁ ≠ d₂) :
    bufferTableName s d₁ = bufferTableName s d₂ ∧
    countTables (bufferTableName s d₁)
      (run_buffer_analysis (run_buffer_analysis db s d₁).2 s d₂).2 = 1 ∧
    ((run_buffer_analysis (run_buffer_analysis db s d₁).2 s d₂).2).filter
        (fun p => p.1 == bufferTableName s d₁)
      = [(bufferTableName s d₁, TableData.buffered s d₂)] ∧
    (bufferTableName s d₁, TableData.buffered s d₁) ∉
      (run_buffer_analysis (run_buffer_analysis db s d₁).2 s d₂).2 := by
  have hname : bufferTableName s d₁ = bufferTableName s d₂ := by
    rw [bufferTableName, bufferTableName, ht]
  have hsn : s ≠ bufferTableName s d₁ := Ne.symm (bufferTableName_ne_source s d₁)
  have h1 := run_buffer_state db s d₁ hs
  have hex2 : tableExists ((run_buffer_analysis db s d₁).2) s = true :=
    tableExists_run_buffer db s d₁ s hsn hs hs
  have h2 := run_buffer_state ((run_buffer_analysis db s d₁).2) s d₂ hex2
  rw [← hname] at h2
  have hdrop : dropTable (bufferTableName s d₁) ((run_buffer_analysis db s d₁).2)
      = dropTable (bufferTableName s d₁) db := by
    rw [h1, dropTable_append, dropTable_idem, dropTable_single_self, List.append_nil]
  rw [hdrop] at h2
  refine ⟨hname, ?_, ?_, ?_⟩
  · rw [h2]
    unfold countTables
    rw [List.filter_append, filter_key_dropTable]
    simp [List.filter_cons]
  · rw [h2, List.filter_append, filter_key_dropTable]
    simp [List.filter_cons]
  · rw [h2]
    intro hmem
    rcases List.mem_append.mp hmem with hmem1 | hmem2
    · unfold dropTable at hmem1
      have hkey := (List.mem_filter.mp hmem1).2
      simp at hkey
    · have hpair : TableData.buffered s d₁ = TableData.buffered s d₂ := by
        simpa using hmem2
      exact hdist (TableData.buffered.inj hpair).2

/-- Witness for `buffer_truncation_collides_and_replaces` at the
concrete distances 50.2 and 50.9 from the claim. -/
theorem buffer_truncation_collides_and_replaces_witness :
    tableExists dbParcels "parcels" = true ∧
    pyInt (50.2 : ℚ) = pyInt (50.9 : ℚ) ∧
    (50.2 : ℚ) ≠ (50.9 : ℚ) ∧
    (bufferTableName "parcels" (50.2 : ℚ) = bufferTableName "parcels" (50.9 : ℚ) ∧
     countTables (bufferTableName "parcels" (50.2 : ℚ))
       (run_buffer_analysis
         (run_buffer_analysis dbParcels "parcels" (50.2 : ℚ)).2 "parcels" (50.9 : ℚ)).2
       = 1 ∧
     ((run_buffer_analysis
         (run_buffer_analysis dbParcels "parcels" (50.2 : ℚ)).2 "parcels" (50.9 : ℚ)).2).filter
         (fun p => p.1 == bufferTableName "parcels" (50.2 : ℚ))
       = [(bufferTableName "parcels" (50.2 : ℚ),
           TableData.buffered "parcels" (50.9 : ℚ))] ∧
     (bufferTableName "parcels" (50.2 : ℚ), TableData.buffered "parcels" (50.2 : ℚ)) ∉
       (run_buffer_analysis
         (run_buffer_analysis dbParcels "parcels" (50.2 : ℚ)).2 "parcels" (50.9 : ℚ)).2) :=
  ⟨rfl, by norm_num [pyInt], by norm_num,
   buffer_truncation_collides_and_replaces dbParcels "parcels" (50.2 : ℚ) (50.9 : ℚ)
     rfl (by norm_num [pyInt]) (by norm_num)⟩

end WebGIS

